import Mathlib

/-!
# Verification of the borrow_trait capability layer

Shallow embedding of the `borrow_trait` crate: the `BorrowRef` (shared borrow)
and `BorrowRefMut` (exclusive borrow) capability traits, their conformances for
the runtime-checked cell (`RefCell` and its reference forms, from
`src/borrow_ref.rs` and `src/borrow_ref_mut.rs`), and the generic delegating
conformances for the ownership/indirection wrappers `Rc`, `Arc`, `Box` and
their reference forms (from `src/pointers.rs`).

The crate delegates all arity tracking to the delegate cell primitive
(`core::cell::RefCell`), whose source is outside this repository; that state
machine is modelled from the specification (states `Free`, `Shared(n)` with
`n ≥ 1`, `Exclusive`). Borrow conflicts, which the crate surfaces as panics of
the delegate cell, are embedded as `Option.none` results.
-/

namespace BorrowTrait

/-- Modelled from the spec: the per-cell access state machine of the delegate
checked-cell primitive (`core::cell::RefCell`, not part of this repository).
States: `Free`, `Shared(n)` with `n ≥ 1`, `Exclusive`. -/
inductive BorrowState where
  | free
  | shared (n : Nat)
  | exclusive
deriving DecidableEq, Repr

/-- Modelled from the spec: shared acquisition.
`Free --shared--> Shared(1)`; `Shared(n) --shared--> Shared(n+1)`;
any attempt at `shared` from `Exclusive` fails. -/
def tryShared : BorrowState → Option BorrowState
  | .free => some (.shared 1)
  | .shared n => some (.shared (n + 1))
  | .exclusive => none

/-- Modelled from the spec: exclusive acquisition.
`Free --exclusive--> Exclusive`; any attempt at `exclusive` from `Shared(_)`
or `Exclusive` fails. -/
def tryExclusive : BorrowState → Option BorrowState
  | .free => some .exclusive
  | .shared _ => none
  | .exclusive => none

/-- Modelled from the spec: dropping a shared guard.
`Shared(1) → Free`; `Shared(n) → Shared(n-1)` for `n > 1`. -/
def dropShared : BorrowState → Option BorrowState
  | .shared 1 => some .free
  | .shared (n + 2) => some (.shared (n + 1))
  | _ => none

/-- Modelled from the spec: dropping an exclusive guard. `Exclusive → Free`. -/
def dropExclusive : BorrowState → Option BorrowState
  | .exclusive => some .free
  | _ => none

/-- Number of outstanding shared guards encoded by a state. -/
def sharedGuards : BorrowState → Nat
  | .free => 0
  | .shared n => n
  | .exclusive => 0

/-- Number of outstanding exclusive guards encoded by a state. -/
def exclusiveGuards : BorrowState → Nat
  | .free => 0
  | .shared _ => 0
  | .exclusive => 1

/-- Well-formedness of a state: the spec only admits `Shared(n)` with `n ≥ 1`. -/
def BorrowState.wf : BorrowState → Prop
  | .free => True
  | .shared n => 1 ≤ n
  | .exclusive => True

/-- Events of the per-cell state machine: the two acquisitions and the two
guard drops. -/
inductive CellEvent where
  | acquireShared
  | acquireExclusive
  | releaseShared
  | releaseExclusive
deriving DecidableEq, Repr

/-- One step of the per-cell state machine (`none` when the event is refused,
i.e. a borrow conflict for acquisitions, no matching guard for drops). -/
def cellStep (s : BorrowState) : CellEvent → Option BorrowState
  | .acquireShared => tryShared s
  | .acquireExclusive => tryExclusive s
  | .releaseShared => dropShared s
  | .releaseExclusive => dropExclusive s

/-- States reachable from the initial state `Free` by any sequence of
successful `borrow`, `borrow_mut` and guard-drop operations. -/
inductive Reachable : BorrowState → Prop where
  | init : Reachable .free
  | step {s s' : BorrowState} {e : CellEvent} :
      Reachable s → cellStep s e = some s' → Reachable s'

/-- Model of the delegate checked cell: its access state plus the inner value. -/
structure RefCell (α : Type) where
  borrowState : BorrowState
  value : α
deriving DecidableEq, Repr

/-- `RefCell::new`: a fresh cell starts in the `Free` state. -/
def RefCell.new (v : α) : RefCell α := ⟨.free, v⟩

/-- A shared guard (`core::cell::Ref`): read-only view of the inner value. -/
structure Ref (α : Type) where
  value : α
deriving DecidableEq, Repr

/-- An exclusive guard (`core::cell::RefMut`): read-write view of the inner
value. -/
structure RefMut (α : Type) where
  value : α
deriving DecidableEq, Repr

/-- Writing through an exclusive guard. -/
def RefMut.set (_g : RefMut α) (v : α) : RefMut α := ⟨v⟩

/-- `RefCell::borrow`: on success returns a shared guard on the inner value and
the cell in its updated access state; on a borrow conflict (an exclusive guard
outstanding) it fails — the crate surfaces the delegate cell's panic. -/
def RefCell.borrow (c : RefCell α) : Option (Ref α × RefCell α) :=
  (tryShared c.borrowState).map (fun s => (⟨c.value⟩, ⟨s, c.value⟩))

/-- `RefCell::borrow_mut`: on success returns an exclusive guard and the cell
in the `Exclusive` state; on a borrow conflict (any guard outstanding) it
fails. -/
def RefCell.borrow_mut (c : RefCell α) : Option (RefMut α × RefCell α) :=
  (tryExclusive c.borrowState).map (fun s => (⟨c.value⟩, ⟨s, c.value⟩))

/-- Releasing an exclusive guard writes the (possibly updated) value back into
the cell and returns the state to `Free`. -/
def RefCell.drop_ref_mut (c : RefCell α) (g : RefMut α) : Option (RefCell α) :=
  (dropExclusive c.borrowState).map (fun s => ⟨s, g.value⟩)

/-- Releasing a shared guard. -/
def RefCell.drop_ref (c : RefCell α) (_g : Ref α) : Option (RefCell α) :=
  (dropShared c.borrowState).map (fun s => ⟨s, c.value⟩)

/-- The `BorrowRef<'a>` trait of `src/borrow_ref.rs`: associated types
`Target` and `Pointer` plus the `borrow` method. State mutation, interior in
Rust, is explicit here: the method also returns the container after the call. -/
class BorrowRef (T : Type) (Target : outParam Type) (Pointer : outParam Type) where
  borrow : T → Option (Pointer × T)

/-- The `BorrowRefMut<'a>` trait of `src/borrow_ref_mut.rs`. -/
class BorrowRefMut (T : Type) (Target : outParam Type) (Pointer : outParam Type) where
  borrow_mut : T → Option (Pointer × T)

/-- The shared-reference form `&T` of a container. -/
structure RRef (T : Type) where
  get : T
deriving DecidableEq, Repr

/-- The mutable-reference form `&mut T` of a container. -/
structure RMut (T : Type) where
  get : T
deriving DecidableEq, Repr

/-- `impl BorrowRef for RefCell<T>` (from `borrow_ref![Ref<'a, T> =>
RefCell::borrow => RefCell<T>, ...]`). -/
instance instBorrowRefRefCell {α : Type} : BorrowRef (RefCell α) α (Ref α) :=
  ⟨RefCell.borrow⟩

/-- `impl BorrowRef for &RefCell<T>`: the macro body `RefCell::borrow(self)`
routes to the same cell. -/
instance instBorrowRefRRefRefCell {α : Type} :
    BorrowRef (RRef (RefCell α)) α (Ref α) :=
  ⟨fun r => (RefCell.borrow r.get).map (fun pc => (pc.1, ⟨pc.2⟩))⟩

/-- `impl BorrowRef for &mut RefCell<T>`. -/
instance instBorrowRefRMutRefCell {α : Type} :
    BorrowRef (RMut (RefCell α)) α (Ref α) :=
  ⟨fun r => (RefCell.borrow r.get).map (fun pc => (pc.1, ⟨pc.2⟩))⟩

/-- `impl BorrowRefMut for RefCell<T>` (from `borrow_ref_mut![RefMut<'a, T> =>
RefCell::borrow_mut => RefCell<T>, ...]`). -/
instance instBorrowRefMutRefCell {α : Type} :
    BorrowRefMut (RefCell α) α (RefMut α) :=
  ⟨RefCell.borrow_mut⟩

/-- `impl BorrowRefMut for &RefCell<T>`. -/
instance instBorrowRefMutRRefRefCell {α : Type} :
    BorrowRefMut (RRef (RefCell α)) α (RefMut α) :=
  ⟨fun r => (RefCell.borrow_mut r.get).map (fun pc => (pc.1, ⟨pc.2⟩))⟩

/-- `impl BorrowRefMut for &mut RefCell<T>`. -/
instance instBorrowRefMutRMutRefCell {α : Type} :
    BorrowRefMut (RMut (RefCell α)) α (RefMut α) :=
  ⟨fun r => (RefCell.borrow_mut r.get).map (fun pc => (pc.1, ⟨pc.2⟩))⟩

/-- The shared-ownership wrapper `Rc<T>` of `src/pointers.rs`, modelled by
value for the generic delegation rule (clone aliasing is modelled separately
by `RcHandle` over a `Store`). -/
structure Rc (T : Type) where
  get : T
deriving DecidableEq, Repr

/-- The atomic shared-ownership wrapper `Arc<T>`. -/
structure Arc (T : Type) where
  get : T
deriving DecidableEq, Repr

/-- The unique heap-indirection wrapper `Box<T>`. -/
structure Box (T : Type) where
  get : T
deriving DecidableEq, Repr

/-- `pointer_trait![Rc<T>, ...]`: `impl BorrowRefMut for Rc<T> where
T: BorrowRefMut` with `Target = K`, `Pointer = <T as BorrowRefMut>::Pointer`
and body `self.as_ref().borrow_mut()`. -/
instance instBorrowRefMutRc {T K P : Type} [BorrowRefMut T K P] :
    BorrowRefMut (Rc T) K P :=
  ⟨fun r => (BorrowRefMut.borrow_mut r.get).map (fun pc => (pc.1, ⟨pc.2⟩))⟩

/-- `impl BorrowRef for Rc<T> where T: BorrowRef`, body
`self.as_ref().borrow()`. -/
instance instBorrowRefRc {T K P : Type} [BorrowRef T K P] :
    BorrowRef (Rc T) K P :=
  ⟨fun r => (BorrowRef.borrow r.get).map (fun pc => (pc.1, ⟨pc.2⟩))⟩

/-- `impl BorrowRefMut for &Rc<T> where T: BorrowRefMut`: `as_ref` resolves
through the outer reference to the inner `T`. -/
instance instBorrowRefMutRRefRc {T K P : Type} [BorrowRefMut T K P] :
    BorrowRefMut (RRef (Rc T)) K P :=
  ⟨fun r => (BorrowRefMut.borrow_mut r.get.get).map (fun pc => (pc.1, ⟨⟨pc.2⟩⟩))⟩

/-- `impl BorrowRef for &Rc<T> where T: BorrowRef`. -/
instance instBorrowRefRRefRc {T K P : Type} [BorrowRef T K P] :
    BorrowRef (RRef (Rc T)) K P :=
  ⟨fun r => (BorrowRef.borrow r.get.get).map (fun pc => (pc.1, ⟨⟨pc.2⟩⟩))⟩

/-- `impl BorrowRefMut for &mut Rc<T> where T: BorrowRefMut`. -/
instance instBorrowRefMutRMutRc {T K P : Type} [BorrowRefMut T K P] :
    BorrowRefMut (RMut (Rc T)) K P :=
  ⟨fun r => (BorrowRefMut.borrow_mut r.get.get).map (fun pc => (pc.1, ⟨⟨pc.2⟩⟩))⟩

/-- `impl BorrowRef for &mut Rc<T> where T: BorrowRef`. -/
instance instBorrowRefRMutRc {T K P : Type} [BorrowRef T K P] :
    BorrowRef (RMut (Rc T)) K P :=
  ⟨fun r => (BorrowRef.borrow r.get.get).map (fun pc => (pc.1, ⟨⟨pc.2⟩⟩))⟩

/-- `impl BorrowRefMut for Arc<T> where T: BorrowRefMut`. -/
instance instBorrowRefMutArc {T K P : Type} [BorrowRefMut T K P] :
    BorrowRefMut (Arc T) K P :=
  ⟨fun r => (BorrowRefMut.borrow_mut r.get).map (fun pc => (pc.1, ⟨pc.2⟩))⟩

/-- `impl BorrowRef for Arc<T> where T: BorrowRef`. -/
instance instBorrowRefArc {T K P : Type} [BorrowRef T K P] :
    BorrowRef (Arc T) K P :=
  ⟨fun r => (BorrowRef.borrow r.get).map (fun pc => (pc.1, ⟨pc.2⟩))⟩

/-- `impl BorrowRefMut for &Arc<T> where T: BorrowRefMut`. -/
instance instBorrowRefMutRRefArc {T K P : Type} [BorrowRefMut T K P] :
    BorrowRefMut (RRef (Arc T)) K P :=
  ⟨fun r => (BorrowRefMut.borrow_mut r.get.get).map (fun pc => (pc.1, ⟨⟨pc.2⟩⟩))⟩

/-- `impl BorrowRef for &Arc<T> where T: BorrowRef`. -/
instance instBorrowRefRRefArc {T K P : Type} [BorrowRef T K P] :
    BorrowRef (RRef (Arc T)) K P :=
  ⟨fun r => (BorrowRef.borrow r.get.get).map (fun pc => (pc.1, ⟨⟨pc.2⟩⟩))⟩

/-- `impl BorrowRefMut for &mut Arc<T> where T: BorrowRefMut`. -/
instance instBorrowRefMutRMutArc {T K P : Type} [BorrowRefMut T K P] :
    BorrowRefMut (RMut (Arc T)) K P :=
  ⟨fun r => (BorrowRefMut.borrow_mut r.get.get).map (fun pc => (pc.1, ⟨⟨pc.2⟩⟩))⟩

/-- `impl BorrowRef for &mut Arc<T> where T: BorrowRef`. -/
instance instBorrowRefRMutArc {T K P : Type} [BorrowRef T K P] :
    BorrowRef (RMut (Arc T)) K P :=
  ⟨fun r => (BorrowRef.borrow r.get.get).map (fun pc => (pc.1, ⟨⟨pc.2⟩⟩))⟩

/-- `impl BorrowRefMut for Box<T> where T: BorrowRefMut`. -/
instance instBorrowRefMutBox {T K P : Type} [BorrowRefMut T K P] :
    BorrowRefMut (Box T) K P :=
  ⟨fun r => (BorrowRefMut.borrow_mut r.get).map (fun pc => (pc.1, ⟨pc.2⟩))⟩

/-- `impl BorrowRef for Box<T> where T: BorrowRef`. -/
instance instBorrowRefBox {T K P : Type} [BorrowRef T K P] :
    BorrowRef (Box T) K P :=
  ⟨fun r => (BorrowRef.borrow r.get).map (fun pc => (pc.1, ⟨pc.2⟩))⟩

/-- `impl BorrowRefMut for &Box<T> where T: BorrowRefMut`. -/
instance instBorrowRefMutRRefBox {T K P : Type} [BorrowRefMut T K P] :
    BorrowRefMut (RRef (Box T)) K P :=
  ⟨fun r => (BorrowRefMut.borrow_mut r.get.get).map (fun pc => (pc.1, ⟨⟨pc.2⟩⟩))⟩

/-- `impl BorrowRef for &Box<T> where T: BorrowRef`. -/
instance instBorrowRefRRefBox {T K P : Type} [BorrowRef T K P] :
    BorrowRef (RRef (Box T)) K P :=
  ⟨fun r => (BorrowRef.borrow r.get.get).map (fun pc => (pc.1, ⟨⟨pc.2⟩⟩))⟩

/-- `impl BorrowRefMut for &mut Box<T> where T: BorrowRefMut`. -/
instance instBorrowRefMutRMutBox {T K P : Type} [BorrowRefMut T K P] :
    BorrowRefMut (RMut (Box T)) K P :=
  ⟨fun r => (BorrowRefMut.borrow_mut r.get.get).map (fun pc => (pc.1, ⟨⟨pc.2⟩⟩))⟩

/-- `impl BorrowRef for &mut Box<T> where T: BorrowRef`. -/
instance instBorrowRefRMutBox {T K P : Type} [BorrowRef T K P] :
    BorrowRef (RMut (Box T)) K P :=
  ⟨fun r => (BorrowRef.borrow r.get.get).map (fun pc => (pc.1, ⟨⟨pc.2⟩⟩))⟩

/-- The compile-time feature toggles of the crate (`std`, `alloc`,
`atomic_refcell`, `cell`). -/
structure Features where
  std : Bool
  alloc : Bool
  atomicRefcell : Bool
  cell : Bool
deriving DecidableEq, Repr

/-- The base `BorrowRef` conformances for `RefCell` (`src/borrow_ref.rs`):
compiled unconditionally. -/
def refcellBorrowRefEnabled (_f : Features) : Bool := true

/-- The base `BorrowRefMut` conformances for `RefCell`
(`src/borrow_ref_mut.rs`): compiled unconditionally. -/
def refcellBorrowRefMutEnabled (_f : Features) : Bool := true

/-- The `BorrowRef` conformances for `AtomicRefCell`, gated by
`cfg(all(feature = "atomic_refcell", feature = "alloc"))` in
`src/borrow_ref.rs`. -/
def atomicBorrowRefEnabled (f : Features) : Bool :=
  f.atomicRefcell && f.alloc

/-- The `BorrowRefMut` conformances for `AtomicRefCell`, gated by
`cfg(feature = "atomic_refcell")` in `src/borrow_ref_mut.rs`. -/
def atomicBorrowRefMutEnabled (f : Features) : Bool :=
  f.atomicRefcell

/-- The `BorrowRef` conformances for `cell::RefCell`, gated by
`cfg(all(feature = "cell", feature = "alloc"))` in `src/borrow_ref.rs`. -/
def cellBorrowRefEnabled (f : Features) : Bool :=
  f.cell && f.alloc

/-- The `BorrowRefMut` conformances for `cell::RefCell`, gated by
`cfg(feature = "cell")` in `src/borrow_ref_mut.rs`. -/
def cellBorrowRefMutEnabled (f : Features) : Bool :=
  f.cell

/-- The wrapper conformances (`mod pointers`), gated by
`cfg(feature = "alloc")` in `src/lib.rs`. -/
def pointersEnabled (f : Features) : Bool :=
  f.alloc

/-- The `std::io::Cursor` used by the crate's tests: a byte buffer plus a read
position. -/
structure Cursor (α : Type) where
  data : List α
  pos : Nat
deriving DecidableEq, Repr

/-- `Cursor::new`: position starts at the beginning. -/
def Cursor.new (data : List α) : Cursor α := ⟨data, 0⟩

/-- `Read::read_to_end` on a cursor: yields everything from the current
position and leaves the position at the end. -/
def Cursor.read_to_end (c : Cursor α) : List α × Cursor α :=
  (c.data.drop c.pos, ⟨c.data, c.data.length⟩)

/-- The `takes_bound` helper of `tests/trait.rs`: takes any container bound by
`BorrowRefMut` whose target reads as a cursor, acquires the exclusive guard and
reads the inner value to the end. Failure of the acquisition (a panic in the
test) is `none`. -/
def takes_bound {T : Type} [BorrowRefMut T (Cursor Nat) (RefMut (Cursor Nat))]
    (value : T) : Option (List Nat) :=
  (BorrowRefMut.borrow_mut value).map
    (fun pc => (Cursor.read_to_end pc.1.value).1)

/-- Modelled from the spec: a store of cells addressed by index, used to model
the aliasing of shared-ownership wrappers (`Rc`, whose source is outside this
repository): every clone of an `Rc` points at the same underlying cell. -/
abbrev Store (α : Type) : Type := List (RefCell α)

/-- Modelled from the spec: an `Rc<RefCell<_>>` handle is an address into the
store. -/
structure RcHandle where
  addr : Nat
deriving DecidableEq, Repr

/-- Modelled from the spec: `Rc::clone` yields a handle to the same underlying
cell. -/
def RcHandle.clone (r : RcHandle) : RcHandle := ⟨r.addr⟩

/-- `borrow_mut` invoked through an `Rc` handle: the wrapper conformance
dereferences to the shared cell in the store and re-invokes `borrow_mut` on
it; on success the store holds the cell in its updated state. -/
def borrow_mut_via (st : Store α) (r : RcHandle) :
    Option (RefMut α × Store α) :=
  match st[r.addr]? with
  | none => none
  | some c => (RefCell.borrow_mut c).map (fun pc => (pc.1, st.set r.addr pc.2))

/-! ## Helper lemmas -/

/-- Re-wrapping the container component of a delegated call does not change
the returned guard. -/
lemma map_wrap_fst {P A B : Type} (o : Option (P × A)) (f : A → B) :
    (o.map (fun pc => (pc.1, f pc.2))).map Prod.fst = o.map Prod.fst := by
  cases o <;> rfl

/-- Re-wrapping three times (nested wrappers) does not change the guard. -/
lemma map_wrap_fst3 {P A B C D : Type} (o : Option (P × A))
    (f : A → B) (g : B → C) (k : C → D) :
    ((((o.map (fun pc => (pc.1, f pc.2))).map
        (fun pc => (pc.1, g pc.2))).map
        (fun pc => (pc.1, k pc.2)))).map Prod.fst = o.map Prod.fst := by
  cases o <;> rfl

/-- Re-wrapping the container component does not change success or failure. -/
lemma map_wrap_isSome {P A B : Type} (o : Option (P × A)) (f : A → B) :
    (o.map (fun pc => (pc.1, f pc.2))).isSome = o.isSome := by
  cases o <;> rfl

/-- Re-wrapping three times does not change success or failure. -/
lemma map_wrap_isSome3 {P A B C D : Type} (o : Option (P × A))
    (f : A → B) (g : B → C) (k : C → D) :
    ((((o.map (fun pc => (pc.1, f pc.2))).map
        (fun pc => (pc.1, g pc.2))).map
        (fun pc => (pc.1, k pc.2)))).isSome = o.isSome := by
  cases o <;> rfl

/-- Re-wrapping the container component and then projecting it back through a
left inverse recovers the undelegated container component. -/
lemma map_wrap_unwrap {P A B : Type} (o : Option (P × A)) (f : A → B)
    (g : B → A) (hfg : ∀ a, g (f a) = a) :
    (o.map (fun pc => (pc.1, f pc.2))).map (fun pc => g pc.2)
      = o.map Prod.snd := by
  cases o <;> simp [hfg]

/-- Re-wrapping twice (a wrapper of a wrapper) does not change the guard. -/
lemma map_wrap_fst2 {P A B C : Type} (o : Option (P × A))
    (f : A → B) (g : B → C) :
    ((o.map (fun pc => (pc.1, f pc.2))).map
        (fun pc => (pc.1, g pc.2))).map Prod.fst = o.map Prod.fst := by
  cases o <;> rfl

/-- A delegated call fails exactly when the inner call fails. -/
lemma map_wrap_none_iff {P A B : Type} (o : Option (P × A)) (f : A → B) :
    (o.map (fun pc => (pc.1, f pc.2)) = none) ↔ o = none := by
  cases o <;> simp

/-- A doubly delegated call fails exactly when the innermost call fails. -/
lemma map_wrap_none_iff2 {P A B C : Type} (o : Option (P × A))
    (f : A → B) (g : B → C) :
    ((o.map (fun pc => (pc.1, f pc.2))).map
        (fun pc => (pc.1, g pc.2)) = none) ↔ o = none := by
  cases o <;> simp

/-- The value read through a doubly delegated exclusive guard is the value
read through the innermost guard. -/
lemma map_wrap_val2 {V A B C : Type} (o : Option (RefMut V × A))
    (f : A → B) (g : B → C) :
    ((o.map (fun pc => (pc.1, f pc.2))).map
        (fun pc => (pc.1, g pc.2))).map (fun pc => pc.1.value)
      = o.map (fun pc => pc.1.value) := by
  cases o <;> rfl

/-- A cell-machine step never leaves the well-formed states. -/
lemma cellStep_wf {s s' : BorrowState} {e : CellEvent} (hw : s.wf)
    (hstep : cellStep s e = some s') : s'.wf := by
  cases e with
  | acquireShared =>
    cases s with
    | free => injection hstep with h; subst h; exact Nat.le_refl 1
    | shared n =>
      injection hstep with h; subst h; exact Nat.succ_le_succ (Nat.zero_le n)
    | exclusive => exact Option.noConfusion hstep
  | acquireExclusive =>
    cases s with
    | free => injection hstep with h; subst h; trivial
    | shared n => exact Option.noConfusion hstep
    | exclusive => exact Option.noConfusion hstep
  | releaseShared =>
    cases s with
    | free => exact Option.noConfusion hstep
    | shared n =>
      rcases n with _ | _ | n
      · exact Option.noConfusion hstep
      · injection hstep with h; subst h; trivial
      · injection hstep with h; subst h; exact Nat.succ_le_succ (Nat.zero_le n)
    | exclusive => exact Option.noConfusion hstep
  | releaseExclusive =>
    cases s with
    | free => exact Option.noConfusion hstep
    | shared n => exact Option.noConfusion hstep
    | exclusive => injection hstep with h; subst h; trivial

/-- Every reachable state is well-formed: `Shared(n)` only with `n ≥ 1`. -/
lemma reachable_wf {s : BorrowState} (h : Reachable s) : s.wf := by
  induction h with
  | init => trivial
  | step _ hstep ih => exact cellStep_wf ih hstep

/-! ## Claim theorems -/

/-- C1: for the checked cell and its reference forms, `borrow_mut` on a free
cell returns an exclusive read-write guard on the inner value; while that
guard is held (state `Exclusive`) neither a shared nor an exclusive guard can
be acquired; when any guard is outstanding (state `Shared(n)` or `Exclusive`)
the call fails with a borrow conflict. -/
theorem c1_borrow_mut_spec (α : Type) (v : α) (n : Nat) :
    RefCell.borrow_mut (⟨.free, v⟩ : RefCell α)
        = some (⟨v⟩, ⟨.exclusive, v⟩)
    ∧ RefCell.borrow_mut (⟨.exclusive, v⟩ : RefCell α) = none
    ∧ RefCell.borrow (⟨.exclusive, v⟩ : RefCell α) = none
    ∧ RefCell.borrow_mut (⟨.shared n, v⟩ : RefCell α) = none
    ∧ BorrowRefMut.borrow_mut (RRef.mk (⟨.free, v⟩ : RefCell α))
        = some (⟨v⟩, ⟨⟨.exclusive, v⟩⟩)
    ∧ BorrowRefMut.borrow_mut (RRef.mk (⟨.exclusive, v⟩ : RefCell α)) = none
    ∧ BorrowRefMut.borrow_mut (RRef.mk (⟨.shared n, v⟩ : RefCell α)) = none
    ∧ BorrowRefMut.borrow_mut (RMut.mk (⟨.free, v⟩ : RefCell α))
        = some (⟨v⟩, ⟨⟨.exclusive, v⟩⟩)
    ∧ BorrowRefMut.borrow_mut (RMut.mk (⟨.exclusive, v⟩ : RefCell α)) = none
    ∧ BorrowRefMut.borrow_mut (RMut.mk (⟨.shared n, v⟩ : RefCell α)) = none :=
  ⟨rfl, rfl, rfl, rfl, rfl, rfl, rfl, rfl, rfl, rfl⟩

/-- C2: for the checked cell and its reference forms, `borrow` succeeds
whenever no exclusive guard is outstanding — from `Free` it yields the first
shared guard, from `Shared(n)` it yields one more for every `n`, so unboundedly
many shared guards coexist — and from `Exclusive` it fails with a borrow
conflict, returning no guard at all. -/
theorem c2_borrow_spec (α : Type) (v : α) (n : Nat) :
    RefCell.borrow (⟨.free, v⟩ : RefCell α) = some (⟨v⟩, ⟨.shared 1, v⟩)
    ∧ RefCell.borrow (⟨.shared n, v⟩ : RefCell α)
        = some (⟨v⟩, ⟨.shared (n + 1), v⟩)
    ∧ RefCell.borrow (⟨.exclusive, v⟩ : RefCell α) = none
    ∧ BorrowRef.borrow (RRef.mk (⟨.free, v⟩ : RefCell α))
        = some (⟨v⟩, ⟨⟨.shared 1, v⟩⟩)
    ∧ BorrowRef.borrow (RRef.mk (⟨.shared n, v⟩ : RefCell α))
        = some (⟨v⟩, ⟨⟨.shared (n + 1), v⟩⟩)
    ∧ BorrowRef.borrow (RRef.mk (⟨.exclusive, v⟩ : RefCell α)) = none
    ∧ BorrowRef.borrow (RMut.mk (⟨.free, v⟩ : RefCell α))
        = some (⟨v⟩, ⟨⟨.shared 1, v⟩⟩)
    ∧ BorrowRef.borrow (RMut.mk (⟨.shared n, v⟩ : RefCell α))
        = some (⟨v⟩, ⟨⟨.shared (n + 1), v⟩⟩)
    ∧ BorrowRef.borrow (RMut.mk (⟨.exclusive, v⟩ : RefCell α)) = none :=
  ⟨rfl, rfl, rfl, rfl, rfl, rfl, rfl, rfl, rfl⟩

/-- C3: the per-cell state machine, started in `Free`, keeps these invariants
in every reachable state: well-formedness (`Shared(n)` only with `n ≥ 1`), at
most one exclusive guard outstanding, an exclusive guard never coexisting with
a shared guard, and once every outstanding guard has been released (both guard
counts zero) a subsequent exclusive acquisition succeeds; guard drops follow
`Shared(1) → Free`, `Shared(n) → Shared(n-1)` for `n > 1`, and
`Exclusive → Free`. -/
theorem c3_state_machine (s : BorrowState) (h : Reachable s) :
    (s.wf
      ∧ exclusiveGuards s ≤ 1
      ∧ ¬(1 ≤ exclusiveGuards s ∧ 1 ≤ sharedGuards s)
      ∧ (sharedGuards s = 0 ∧ exclusiveGuards s = 0 →
          tryExclusive s = some .exclusive))
    ∧ Reachable BorrowState.free
    ∧ (∀ m : Nat, dropShared (.shared 1) = some .free
        ∧ dropShared (.shared (m + 2)) = some (.shared (m + 1))
        ∧ dropExclusive .exclusive = some .free) := by
  refine ⟨⟨reachable_wf h, ?_, ?_, ?_⟩, Reachable.init, fun m => ⟨rfl, rfl, rfl⟩⟩
  · cases s <;> simp [exclusiveGuards]
  · cases s <;> simp [exclusiveGuards, sharedGuards]
  · intro ⟨hs, he⟩
    have hw := reachable_wf h
    cases s with
    | free => rfl
    | shared m =>
      exact absurd hs (by simpa [sharedGuards] using Nat.one_le_iff_ne_zero.mp hw)
    | exclusive => simp [exclusiveGuards] at he

/-- C3 witness: the state `Shared(2)` is reachable (two successful shared
acquisitions from `Free`) and satisfies the invariants. -/
theorem c3_state_machine_witness :
    ((BorrowState.shared 2).wf
      ∧ exclusiveGuards (.shared 2) ≤ 1
      ∧ ¬(1 ≤ exclusiveGuards (.shared 2) ∧ 1 ≤ sharedGuards (.shared 2))
      ∧ (sharedGuards (.shared 2) = 0 ∧ exclusiveGuards (.shared 2) = 0 →
          tryExclusive (.shared 2) = some .exclusive))
    ∧ Reachable BorrowState.free
    ∧ (∀ m : Nat, dropShared (.shared 1) = some .free
        ∧ dropShared (.shared (m + 2)) = some (.shared (m + 1))
        ∧ dropExclusive .exclusive = some .free) :=
  c3_state_machine (.shared 2)
    (@Reachable.step (.shared 1) (.shared 2) .acquireShared
      (@Reachable.step .free (.shared 1) .acquireShared Reachable.init rfl)
      rfl)

/-- C4: for every wrapper kind (`Rc`, `Arc`, `Box` and the reference and
mutable-reference forms of each) whose inner type conforms to a capability,
`borrow` / `borrow_mut` on the wrapper returns exactly the guard of the same
call on the inner value; the delegation composes transitively through nested
wrappers; and borrowing through any wrapper succeeds exactly when borrowing
the inner value succeeds (identical arity rules). -/
theorem c4_wrapper_delegation (T K P Q : Type)
    [BorrowRef T K P] [BorrowRefMut T K Q] (t : T) :
    ((BorrowRef.borrow (Rc.mk t)).map Prod.fst
        = (BorrowRef.borrow t).map Prod.fst)
    ∧ ((BorrowRef.borrow (RRef.mk (Rc.mk t))).map Prod.fst
        = (BorrowRef.borrow t).map Prod.fst)
    ∧ ((BorrowRef.borrow (RMut.mk (Rc.mk t))).map Prod.fst
        = (BorrowRef.borrow t).map Prod.fst)
    ∧ ((BorrowRef.borrow (Arc.mk t)).map Prod.fst
        = (BorrowRef.borrow t).map Prod.fst)
    ∧ ((BorrowRef.borrow (RRef.mk (Arc.mk t))).map Prod.fst
        = (BorrowRef.borrow t).map Prod.fst)
    ∧ ((BorrowRef.borrow (RMut.mk (Arc.mk t))).map Prod.fst
        = (BorrowRef.borrow t).map Prod.fst)
    ∧ ((BorrowRef.borrow (Box.mk t)).map Prod.fst
        = (BorrowRef.borrow t).map Prod.fst)
    ∧ ((BorrowRef.borrow (RRef.mk (Box.mk t))).map Prod.fst
        = (BorrowRef.borrow t).map Prod.fst)
    ∧ ((BorrowRef.borrow (RMut.mk (Box.mk t))).map Prod.fst
        = (BorrowRef.borrow t).map Prod.fst)
    ∧ ((BorrowRefMut.borrow_mut (Rc.mk t)).map Prod.fst
        = (BorrowRefMut.borrow_mut t).map Prod.fst)
    ∧ ((BorrowRefMut.borrow_mut (RRef.mk (Rc.mk t))).map Prod.fst
        = (BorrowRefMut.borrow_mut t).map Prod.fst)
    ∧ ((BorrowRefMut.borrow_mut (RMut.mk (Rc.mk t))).map Prod.fst
        = (BorrowRefMut.borrow_mut t).map Prod.fst)
    ∧ ((BorrowRefMut.borrow_mut (Arc.mk t)).map Prod.fst
        = (BorrowRefMut.borrow_mut t).map Prod.fst)
    ∧ ((BorrowRefMut.borrow_mut (RRef.mk (Arc.mk t))).map Prod.fst
        = (BorrowRefMut.borrow_mut t).map Prod.fst)
    ∧ ((BorrowRefMut.borrow_mut (RMut.mk (Arc.mk t))).map Prod.fst
        = (BorrowRefMut.borrow_mut t).map Prod.fst)
    ∧ ((BorrowRefMut.borrow_mut (Box.mk t)).map Prod.fst
        = (BorrowRefMut.borrow_mut t).map Prod.fst)
    ∧ ((BorrowRefMut.borrow_mut (RRef.mk (Box.mk t))).map Prod.fst
        = (BorrowRefMut.borrow_mut t).map Prod.fst)
    ∧ ((BorrowRefMut.borrow_mut (RMut.mk (Box.mk t))).map Prod.fst
        = (BorrowRefMut.borrow_mut t).map Prod.fst)
    ∧ ((BorrowRef.borrow (Rc.mk (Box.mk (Arc.mk t)))).map Prod.fst
        = (BorrowRef.borrow t).map Prod.fst)
    ∧ ((BorrowRefMut.borrow_mut (Rc.mk (Box.mk (Arc.mk t)))).map Prod.fst
        = (BorrowRefMut.borrow_mut t).map Prod.fst)
    ∧ ((BorrowRef.borrow (Rc.mk t)).isSome = (BorrowRef.borrow t).isSome)
    ∧ ((BorrowRef.borrow (Arc.mk t)).isSome = (BorrowRef.borrow t).isSome)
    ∧ ((BorrowRef.borrow (Box.mk t)).isSome = (BorrowRef.borrow t).isSome)
    ∧ ((BorrowRefMut.borrow_mut (Rc.mk t)).isSome
        = (BorrowRefMut.borrow_mut t).isSome)
    ∧ ((BorrowRefMut.borrow_mut (Arc.mk t)).isSome
        = (BorrowRefMut.borrow_mut t).isSome)
    ∧ ((BorrowRefMut.borrow_mut (Box.mk t)).isSome
        = (BorrowRefMut.borrow_mut t).isSome)
    ∧ ((BorrowRef.borrow (Rc.mk (Box.mk (Arc.mk t)))).isSome
        = (BorrowRef.borrow t).isSome) := by
  exact ⟨map_wrap_fst (BorrowRef.borrow t) Rc.mk,
    map_wrap_fst (BorrowRef.borrow t) (fun x => RRef.mk (Rc.mk x)),
    map_wrap_fst (BorrowRef.borrow t) (fun x => RMut.mk (Rc.mk x)),
    map_wrap_fst (BorrowRef.borrow t) Arc.mk,
    map_wrap_fst (BorrowRef.borrow t) (fun x => RRef.mk (Arc.mk x)),
    map_wrap_fst (BorrowRef.borrow t) (fun x => RMut.mk (Arc.mk x)),
    map_wrap_fst (BorrowRef.borrow t) Box.mk,
    map_wrap_fst (BorrowRef.borrow t) (fun x => RRef.mk (Box.mk x)),
    map_wrap_fst (BorrowRef.borrow t) (fun x => RMut.mk (Box.mk x)),
    map_wrap_fst (BorrowRefMut.borrow_mut t) Rc.mk,
    map_wrap_fst (BorrowRefMut.borrow_mut t) (fun x => RRef.mk (Rc.mk x)),
    map_wrap_fst (BorrowRefMut.borrow_mut t) (fun x => RMut.mk (Rc.mk x)),
    map_wrap_fst (BorrowRefMut.borrow_mut t) Arc.mk,
    map_wrap_fst (BorrowRefMut.borrow_mut t) (fun x => RRef.mk (Arc.mk x)),
    map_wrap_fst (BorrowRefMut.borrow_mut t) (fun x => RMut.mk (Arc.mk x)),
    map_wrap_fst (BorrowRefMut.borrow_mut t) Box.mk,
    map_wrap_fst (BorrowRefMut.borrow_mut t) (fun x => RRef.mk (Box.mk x)),
    map_wrap_fst (BorrowRefMut.borrow_mut t) (fun x => RMut.mk (Box.mk x)),
    map_wrap_fst3 (BorrowRef.borrow t) Arc.mk Box.mk Rc.mk,
    map_wrap_fst3 (BorrowRefMut.borrow_mut t) Arc.mk Box.mk Rc.mk,
    map_wrap_isSome (BorrowRef.borrow t) Rc.mk,
    map_wrap_isSome (BorrowRef.borrow t) Arc.mk,
    map_wrap_isSome (BorrowRef.borrow t) Box.mk,
    map_wrap_isSome (BorrowRefMut.borrow_mut t) Rc.mk,
    map_wrap_isSome (BorrowRefMut.borrow_mut t) Arc.mk,
    map_wrap_isSome (BorrowRefMut.borrow_mut t) Box.mk,
    map_wrap_isSome3 (BorrowRef.borrow t) Arc.mk Box.mk Rc.mk⟩

/-- C4 witness: instantiated at the default checked cell holding `0`, the
first delegation equation evaluates on both sides. -/
theorem c4_wrapper_delegation_witness :
    (BorrowRef.borrow (Rc.mk (RefCell.new (0 : Nat)))).map Prod.fst
      = (BorrowRef.borrow (RefCell.new (0 : Nat))).map Prod.fst :=
  (c4_wrapper_delegation (RefCell Nat) Nat (Ref Nat) (RefMut Nat)
    (RefCell.new 0)).1

/-- C5: the shared-reference and mutable-reference forms of the checked cell
implement both capabilities identically to the cell value itself: the returned
guard, the success or failure of the call, and the resulting access state of
the underlying cell are exactly those of the same call on the cell directly. -/
theorem c5_reference_forms (α : Type) (c : RefCell α) :
    ((BorrowRef.borrow (RRef.mk c)).map Prod.fst
        = (RefCell.borrow c).map Prod.fst)
    ∧ ((BorrowRef.borrow (RRef.mk c)).map (fun pc => pc.2.get)
        = (RefCell.borrow c).map Prod.snd)
    ∧ ((BorrowRef.borrow (RRef.mk c)).isSome = (RefCell.borrow c).isSome)
    ∧ ((BorrowRef.borrow (RMut.mk c)).map Prod.fst
        = (RefCell.borrow c).map Prod.fst)
    ∧ ((BorrowRef.borrow (RMut.mk c)).map (fun pc => pc.2.get)
        = (RefCell.borrow c).map Prod.snd)
    ∧ ((BorrowRef.borrow (RMut.mk c)).isSome = (RefCell.borrow c).isSome)
    ∧ ((BorrowRefMut.borrow_mut (RRef.mk c)).map Prod.fst
        = (RefCell.borrow_mut c).map Prod.fst)
    ∧ ((BorrowRefMut.borrow_mut (RRef.mk c)).map (fun pc => pc.2.get)
        = (RefCell.borrow_mut c).map Prod.snd)
    ∧ ((BorrowRefMut.borrow_mut (RRef.mk c)).isSome
        = (RefCell.borrow_mut c).isSome)
    ∧ ((BorrowRefMut.borrow_mut (RMut.mk c)).map Prod.fst
        = (RefCell.borrow_mut c).map Prod.fst)
    ∧ ((BorrowRefMut.borrow_mut (RMut.mk c)).map (fun pc => pc.2.get)
        = (RefCell.borrow_mut c).map Prod.snd)
    ∧ ((BorrowRefMut.borrow_mut (RMut.mk c)).isSome
        = (RefCell.borrow_mut c).isSome) := by
  exact ⟨map_wrap_fst (RefCell.borrow c) RRef.mk,
    map_wrap_unwrap (RefCell.borrow c) RRef.mk RRef.get (fun _ => rfl),
    map_wrap_isSome (RefCell.borrow c) RRef.mk,
    map_wrap_fst (RefCell.borrow c) RMut.mk,
    map_wrap_unwrap (RefCell.borrow c) RMut.mk RMut.get (fun _ => rfl),
    map_wrap_isSome (RefCell.borrow c) RMut.mk,
    map_wrap_fst (RefCell.borrow_mut c) RRef.mk,
    map_wrap_unwrap (RefCell.borrow_mut c) RRef.mk RRef.get (fun _ => rfl),
    map_wrap_isSome (RefCell.borrow_mut c) RRef.mk,
    map_wrap_fst (RefCell.borrow_mut c) RMut.mk,
    map_wrap_unwrap (RefCell.borrow_mut c) RMut.mk RMut.get (fun _ => rfl),
    map_wrap_isSome (RefCell.borrow_mut c) RMut.mk⟩

/-- C6 counterexample: with the thread-safe (`atomic_refcell`) feature enabled
alone — no `alloc` — the exclusive-borrow conformance is compiled but the
shared-borrow conformance is not, contradicting the claim that the family
provides both conformances without any allocation feature. -/
theorem c6_counterexample :
    atomicBorrowRefMutEnabled ⟨false, false, true, false⟩ = true
    ∧ atomicBorrowRefEnabled ⟨false, false, true, false⟩ = false := by
  exact ⟨rfl, rfl⟩

/-- C6 (amended): the base configuration always provides both capabilities for
the default checked cell; the exclusive-borrow conformances of the thread-safe
and alternate-crate families depend only on their own feature, but the
shared-borrow conformances of those families additionally require the `alloc`
feature; the wrapper-conformance family is compiled exactly when `alloc` is
enabled. -/
theorem c6_feature_gating (s a k c : Bool) :
    refcellBorrowRefEnabled ⟨s, a, k, c⟩ = true
    ∧ refcellBorrowRefMutEnabled ⟨s, a, k, c⟩ = true
    ∧ atomicBorrowRefMutEnabled ⟨s, false, true, c⟩ = true
    ∧ atomicBorrowRefEnabled ⟨s, false, true, c⟩ = false
    ∧ atomicBorrowRefEnabled ⟨s, true, true, c⟩ = true
    ∧ cellBorrowRefMutEnabled ⟨s, false, k, true⟩ = true
    ∧ cellBorrowRefEnabled ⟨s, false, k, true⟩ = false
    ∧ cellBorrowRefEnabled ⟨s, true, k, true⟩ = true
    ∧ atomicBorrowRefMutEnabled ⟨s, a, k, c⟩ = k
    ∧ cellBorrowRefMutEnabled ⟨s, a, k, c⟩ = c
    ∧ atomicBorrowRefEnabled ⟨s, a, k, c⟩ = (k && a)
    ∧ cellBorrowRefEnabled ⟨s, a, k, c⟩ = (c && a)
    ∧ pointersEnabled ⟨s, a, k, c⟩ = a :=
  ⟨rfl, rfl, rfl, rfl, rfl, rfl, rfl, rfl, rfl, rfl, rfl, rfl, rfl⟩

/-- C7: the only failure of a capability operation is the borrow conflict,
raised at exactly the call violating the Free/Shared/Exclusive invariant —
`borrow` fails precisely when an exclusive guard is outstanding, `borrow_mut`
precisely when any guard is outstanding — and the capability layer never
catches or converts it: a wrapper call (one layer or nested) fails exactly
when the delegate call fails, with no recoverable value and no other error
kind (the failure carries nothing, matching the delegate cell's panic). -/
theorem c7_conflict_propagation (α T K P Q : Type)
    [BorrowRef T K P] [BorrowRefMut T K Q] (c : RefCell α) (t : T) :
    (RefCell.borrow c = none ↔ c.borrowState = .exclusive)
    ∧ (RefCell.borrow_mut c = none ↔ c.borrowState ≠ .free)
    ∧ (BorrowRef.borrow (Rc.mk t) = none ↔ BorrowRef.borrow t = none)
    ∧ (BorrowRefMut.borrow_mut (Rc.mk t) = none
        ↔ BorrowRefMut.borrow_mut t = none)
    ∧ (BorrowRef.borrow (Box.mk (Arc.mk t)) = none
        ↔ BorrowRef.borrow t = none)
    ∧ (BorrowRefMut.borrow_mut (Box.mk (Arc.mk t)) = none
        ↔ BorrowRefMut.borrow_mut t = none) := by
  obtain ⟨s, v⟩ := c
  refine ⟨?_, ?_,
    map_wrap_none_iff (BorrowRef.borrow t) Rc.mk,
    map_wrap_none_iff (BorrowRefMut.borrow_mut t) Rc.mk,
    map_wrap_none_iff2 (BorrowRef.borrow t) Arc.mk Box.mk,
    map_wrap_none_iff2 (BorrowRefMut.borrow_mut t) Arc.mk Box.mk⟩
  · cases s <;> simp [RefCell.borrow, tryShared]
  · cases s <;> simp [RefCell.borrow_mut, tryExclusive]

/-- C7 witness: instantiated at a cell holding `0` in the `Free` state and an
`Rc`-wrapped cell, the failure characterisations evaluate. -/
theorem c7_conflict_propagation_witness :
    (RefCell.borrow (RefCell.new (0 : Nat)) = none
        ↔ (RefCell.new (0 : Nat)).borrowState = .exclusive)
    ∧ (RefCell.borrow_mut (RefCell.new (0 : Nat)) = none
        ↔ (RefCell.new (0 : Nat)).borrowState ≠ .free)
    ∧ (BorrowRef.borrow (Rc.mk (RefCell.new (0 : Nat))) = none
        ↔ BorrowRef.borrow (RefCell.new (0 : Nat)) = none)
    ∧ (BorrowRefMut.borrow_mut (Rc.mk (RefCell.new (0 : Nat))) = none
        ↔ BorrowRefMut.borrow_mut (RefCell.new (0 : Nat)) = none)
    ∧ (BorrowRef.borrow (Box.mk (Arc.mk (RefCell.new (0 : Nat)))) = none
        ↔ BorrowRef.borrow (RefCell.new (0 : Nat)) = none)
    ∧ (BorrowRefMut.borrow_mut (Box.mk (Arc.mk (RefCell.new (0 : Nat)))) = none
        ↔ BorrowRefMut.borrow_mut (RefCell.new (0 : Nat)) = none) :=
  c7_conflict_propagation Nat (RefCell Nat) Nat (Ref Nat) (RefMut Nat)
    (RefCell.new 0) (RefCell.new 0)

/-- C8: a cell holding the byte sequence `[0,1,2,3,4,5,6,7,8,9]` — bare or
wrapped in the shared-ownership wrapper — yields exactly those 10 bytes when
an exclusive guard is acquired via `borrow_mut` and the inner cursor is read
to the end through it (the `takes_bound` helper of the crate's tests). -/
theorem c8_scenario_a :
    takes_bound (RefCell.new (Cursor.new [0, 1, 2, 3, 4, 5, 6, 7, 8, 9]))
      = some [0, 1, 2, 3, 4, 5, 6, 7, 8, 9]
    ∧ takes_bound
        (Rc.mk (RefCell.new (Cursor.new [0, 1, 2, 3, 4, 5, 6, 7, 8, 9])))
      = some [0, 1, 2, 3, 4, 5, 6, 7, 8, 9] :=
  ⟨rfl, rfl⟩

/-- C9: when a cell sits behind a shared-ownership wrapper and the wrapper is
cloned, both clones address the same underlying cell: after an exclusive
acquisition through one handle succeeds, an exclusive acquisition through the
clone fails with a borrow conflict while the first guard is outstanding. -/
theorem c9_clone_conflict (α : Type) (st st' : Store α) (r : RcHandle)
    (g : RefMut α) (h : borrow_mut_via st r = some (g, st')) :
    borrow_mut_via st' r.clone = none := by
  unfold borrow_mut_via at h ⊢
  cases hc : st[r.addr]? with
  | none => rw [hc] at h; exact Option.noConfusion h
  | some c =>
    rw [hc] at h
    obtain ⟨⟨g0, c2⟩, hbm, heq⟩ := Option.map_eq_some'.mp h
    obtain ⟨s2, hs2, hpair⟩ := Option.map_eq_some'.mp hbm
    have hs2x : s2 = BorrowState.exclusive := by
      cases hb : c.borrowState
      · rw [hb] at hs2; injection hs2 with h2; exact h2.symm
      · rw [hb] at hs2; exact Option.noConfusion hs2
      · rw [hb] at hs2; exact Option.noConfusion hs2
    have hc2 : c2 = ⟨BorrowState.exclusive, c.value⟩ := by
      injection hpair with h1 h2; rw [← h2, hs2x]
    injection heq with heg hest
    subst hest
    have hlt : r.addr < st.length := (List.getElem?_eq_some_iff.mp hc).1
    have hgoal : (st.set r.addr c2)[(r.clone).addr]? = some c2 := by
      simpa [RcHandle.clone] using List.getElem?_set_eq_of_lt c2 hlt
    rw [hgoal, hc2]
    rfl

/-- C9 witness: a store with one free cell holding `5`; borrowing mutably
through handle `0` succeeds, after which the clone of the handle fails. -/
theorem c9_clone_conflict_witness :
    borrow_mut_via [(⟨BorrowState.exclusive, (5 : Nat)⟩ : RefCell Nat)]
      (RcHandle.clone ⟨0⟩) = none :=
  c9_clone_conflict Nat [RefCell.new 5] [⟨BorrowState.exclusive, 5⟩] ⟨0⟩ ⟨5⟩
    (by decide)

/-- C10: the wrapper conformances set `Target` to the inner conformer's target
and `Pointer` to the inner conformer's pointer, so the guard obtained through
any number of wrapper layers is the innermost cell's own guard — these
equalities type-check only because a guard borrowed through `Rc<Box<RefCell>>`
has the very type `RefMut` of the bare cell's guard — and it reads the same
inner value as a guard obtained from the cell directly. -/
theorem c10_associated_types (α : Type) (c : RefCell α) :
    ((BorrowRefMut.borrow_mut (Rc.mk (Box.mk c))).map Prod.fst
        = (RefCell.borrow_mut c).map Prod.fst)
    ∧ ((BorrowRef.borrow (Arc.mk (Box.mk c))).map Prod.fst
        = (RefCell.borrow c).map Prod.fst)
    ∧ ((BorrowRefMut.borrow_mut (Rc.mk c)).map Prod.fst
        = (RefCell.borrow_mut c).map Prod.fst)
    ∧ ((BorrowRef.borrow (Rc.mk c)).map Prod.fst
        = (RefCell.borrow c).map Prod.fst)
    ∧ ((BorrowRefMut.borrow_mut (Rc.mk (Box.mk c))).map (fun pc => pc.1.value)
        = (RefCell.borrow_mut c).map (fun pc => pc.1.value)) :=
  ⟨map_wrap_fst2 (RefCell.borrow_mut c) Box.mk Rc.mk,
    map_wrap_fst2 (RefCell.borrow c) Box.mk Arc.mk,
    map_wrap_fst (RefCell.borrow_mut c) Rc.mk,
    map_wrap_fst (RefCell.borrow c) Rc.mk,
    map_wrap_val2 (RefCell.borrow_mut c) Box.mk Rc.mk⟩

end BorrowTrait
